import Mathlib

/-!
# Verification of the feedback_bot repository

Shallow embedding of the conversation state machine (`main.py`), the
Google-Sheets manager (`google_sheets.py`) and the extended sheets service
(`google_sheets_service.py`), together with theorems settling the frozen
claims about the natural-language specification.

Modelling conventions:
* sheet contents are `List (List String)` (`get_all_values`, row 0 = header);
* Python dicts with a fixed key set become structures whose fields are
  `Option`-valued when the key may be absent;
* the aiogram FSM (`state`, `update_data`, `clear`, `set_state`) becomes an
  explicit `Session` value threaded through the handlers;
* remote I/O (connection success, the values read, the wall-clock time and
  its `strftime` rendering) is passed in as explicit parameters, since the
  source performs those effects at the corresponding call sites;
* Python `str.isdigit` / `int(...)` are modelled over ASCII digits (the
  source is only ever fed ASCII digit strings by its own keyboards);
* floats are modelled as exact rationals, `round` as round-half-to-even.
-/

namespace FeedbackBot

/-- `get_all_values` result: all rows of the sheet, row 0 being the header. -/
abbrev Table := List (List String)

/-- Value of a decimal-digit string (used only under an `isdigit` guard). -/
def digitsToNat (cs : List Char) : Nat :=
  cs.foldl (fun a c => a * 10 + (c.toNat - 48)) 0

/-- Python `str.isdigit` (ASCII digits): nonempty and all digits. -/
def isdigitStr (s : String) : Bool :=
  !s.data.isEmpty && s.data.all Char.isDigit

/-- Python `str.strip()`: drop whitespace from both ends. -/
def pyStrip (s : String) : String :=
  ⟨((s.data.dropWhile Char.isWhitespace).reverse.dropWhile Char.isWhitespace).reverse⟩

/-- Digit run to `Nat`, or `none` if empty or not all digits. -/
def natDigits (cs : List Char) : Option Nat :=
  if !cs.isEmpty && cs.all Char.isDigit then some (digitsToNat cs) else none

/-- Python `int(s)` on the strings reachable here: optional surrounding
whitespace, optional sign, then a nonempty digit run.  (The inputs come from
`split("_")`, so they can never contain the underscore separators that
Python's `int` would additionally allow.) -/
def pyInt (s : String) : Option Int :=
  let cs := ((s.data.dropWhile Char.isWhitespace).reverse.dropWhile Char.isWhitespace).reverse
  match cs with
  | '+' :: rest => (natDigits rest).map (fun n => (n : Int))
  | '-' :: rest => (natDigits rest).map (fun n => -(n : Int))
  | rest => (natDigits rest).map (fun n => (n : Int))

/-- Python `s.split("_")` on the character list (single-character separator). -/
def splitUnderscore : List Char → List (List Char)
  | [] => [[]]
  | c :: rest =>
    let r := splitUnderscore rest
    if c = '_' then [] :: r
    else (c :: r.headD []) :: r.tail

/-- Python `s.split("_")` at the string level. -/
def pySplitUnderscore (s : String) : List String :=
  (splitUnderscore s.data).map (fun cs => ⟨cs⟩)

/-- Round half to even (banker's rounding, Python `round`) of the exact
fraction `n / d` (`d > 0`), computed on the numerator and denominator. -/
def pyRoundInt (n : Int) (d : Nat) : Int :=
  let f := Int.fdiv n d
  let r := n - f * d
  if 2 * r < (d : Int) then f
  else if (d : Int) < 2 * r then f + 1
  else if f % 2 = 0 then f else f + 1

/-- Python `round(·)` to an integer, on an exact rational. -/
def pyRound (q : ℚ) : ℤ := pyRoundInt q.num q.den

/-- Python `round(q, 2)`: `round(q * 100) / 100` (computed via `mkRat` on
the numerator/denominator so that it evaluates by kernel reduction). -/
def round2 (q : ℚ) : ℚ := mkRat (pyRoundInt (q.num * 100) q.den) 100

/-- Python `round(q, 1)`: `round(q * 10) / 10`. -/
def round1 (q : ℚ) : ℚ := mkRat (pyRoundInt (q.num * 10) q.den) 10

/-! ## Data model of `main.py` -/

/-- The aiogram `FeedbackState` states group, plus `idle` for "no state". -/
inductive BotState
  | idle
  | waiting_rating
  | waiting_type
  | waiting_comment
  | confirmation
deriving DecidableEq

/-- The FSM data dict `{rating?, type?, comment?}`; `none` = key absent.
The `type` key is named `ftype` because `type` is reserved in Lean. -/
structure Draft where
  rating : Option Int
  ftype : Option String
  comment : Option String
deriving DecidableEq

/-- Fresh FSM data: no keys present. -/
def emptyDraft : Draft := ⟨none, none, none⟩

/-- One user's conversation session: FSM state plus accumulated data. -/
structure Session where
  st : BotState
  data : Draft
deriving DecidableEq

/-- The Telegram user fields read by `submit_feedback` (optional fields may
be `None` in Telegram, normalized with `or ""` in the source). -/
structure UserInfo where
  id : Int
  username : Option String
  first_name : Option String
  last_name : Option String
deriving DecidableEq

/-! ## `google_sheets.py` — `GoogleSheetsManager` -/

namespace GS

/-- The dict returned by `GoogleSheetsManager.get_stats`:
`{"total", "average"}` always, `"last_feedback"` only on the success path
(`none` = key absent). -/
structure MgrStats where
  total : Nat
  average : ℚ
  last_feedback : Option String
deriving DecidableEq

/-- The per-row rating extraction of `get_stats`:
`if len(row) > 5 and row[5].isdigit(): ratings.append(int(row[5]))`. -/
def ratingOfRow (row : List String) : Option Nat :=
  if 5 < row.length ∧ isdigitStr (row.getD 5 "") then
    some (digitsToNat (row.getD 5 "").data)
  else none

/-- `GoogleSheetsManager.get_stats`.  `connected` is whether a client is
available after the lazy reconnect attempt; `read` is the outcome of
`sheet.get_all_values()`.  The final `match` models the `IndexError` from
`rows[-1][0]` on an empty last row, caught by the blanket `except`. -/
def get_stats (connected : Bool) (read : Except String Table) : MgrStats :=
  if connected then
    match read with
    | .error _ => ⟨0, 0, none⟩
    | .ok data =>
      if data.length ≤ 1 then ⟨0, 0, none⟩
      else
        let rows := data.drop 1
        let ratings := rows.filterMap ratingOfRow
        let total := rows.length
        let average : ℚ :=
          if ratings.isEmpty then 0 else mkRat (ratings.sum : Int) ratings.length
        match rows.getLast? with
        | some (ts :: _) => ⟨total, round2 average, some ts⟩
        | _ => ⟨0, 0, none⟩
  else ⟨0, 0, none⟩

/-- The row built by `GoogleSheetsManager.save_feedback`:
`[timestamp, str(id), username, first_name, last_name,
  str(feedback_data.get("rating","")), type, comment, "новый"]`.
Absent dict keys default to `""` via `.get`. -/
def mkRow (u : UserInfo) (d : Draft) (ts : String) : List String :=
  [ts, toString u.id, u.username.getD "", u.first_name.getD "",
   u.last_name.getD "",
   (match d.rating with | none => "" | some r => toString r),
   d.ftype.getD "", d.comment.getD "", "новый"]

/-- `GoogleSheetsManager.save_feedback`: on an available connection it
appends the serialized row and returns `True`; otherwise returns `False`
with the sheet untouched (a failing `append_row` is modelled by
`connected = false`, since the blanket `except` then returns `False`). -/
def save_feedback (connected : Bool) (store : Table) (u : UserInfo)
    (d : Draft) (ts : String) : Bool × Table :=
  if connected then (true, store ++ [mkRow u d ts]) else (false, store)

end GS

/-! ## `main.py` — handlers -/

/-- Session plus the manager-backed sheet contents. -/
structure World where
  session : Session
  store : Table
deriving DecidableEq

/-- `start_feedback`: `state.set_state(waiting_rating)` — the FSM data is
left untouched (`set_state` changes only the state). -/
def start_feedback (s : Session) : Session := ⟨.waiting_rating, s.data⟩

/-- `process_rating`: registered for every callback whose data starts with
`"rate_"`, in any state.  `int(callback.data.split("_")[1])` — on
`ValueError` the handler answers and returns with nothing changed; on
success it stores the parsed integer (no range check) and advances. -/
def process_rating (s : Session) (cdata : String) : Session :=
  match pyInt ((pySplitUnderscore cdata).getD 1 "") with
  | none => s
  | some r => ⟨.waiting_type, { s.data with rating := some r }⟩

/-- The `type_names` dict of `process_type`. -/
def type_names : List (String × String) :=
  [("suggestion", "Предложение"), ("bug", "Ошибка"),
   ("idea", "Идея"), ("thanks", "Благодарность")]

/-- `process_type`: `type_names[fb_type]` raises `KeyError` for an unknown
suffix, before any mutation, so the session is unchanged in that case. -/
def process_type (s : Session) (cdata : String) : Session :=
  match (type_names.find? (fun p => p.1 == (pySplitUnderscore cdata).getD 1 "")).map (·.2) with
  | none => s
  | some name => ⟨.waiting_comment, { s.data with ftype := some name }⟩

/-- `process_comment` (text messages in `waiting_comment`):
`comment = "" if text == "/skip" else text`, stored via `update_data`;
then the preview f-string reads `data['rating']` and `data['type']` —
if either key is absent, `KeyError` aborts the handler after the comment
was already stored, and `set_state(confirmation)` is never reached. -/
def process_comment (s : Session) (t : String) : Session :=
  let c := if t = "/skip" then "" else t
  let d := { s.data with comment := some c }
  match d.rating, d.ftype with
  | some _, some _ => ⟨.confirmation, d⟩
  | _, _ => ⟨s.st, d⟩

/-- `submit_feedback`: registered for callback data `"submit"` in any
state.  It saves via the manager (no validation of the draft), then — only
when the save succeeded and `Config.ADMIN_ID` is set — builds the admin
notification f-string, whose `data['rating']` / `data['type']` lookups
raise `KeyError` when absent, skipping the final `state.clear()`. -/
def submit_feedback (w : World) (u : UserInfo) (connected adminSet : Bool)
    (ts : String) : World :=
  let r := GS.save_feedback connected w.store u w.session.data ts
  if r.1 && adminSet && (w.session.data.rating.isNone || w.session.data.ftype.isNone) then
    ⟨w.session, r.2⟩
  else
    ⟨⟨.idle, emptyDraft⟩, r.2⟩

/-- `edit_feedback`: `state.set_state(waiting_rating)` only — the FSM data
(the draft) is not cleared. -/
def edit_feedback (s : Session) : Session := ⟨.waiting_rating, s.data⟩

/-- Callback-query dispatch, in the source's registration order.  `u`,
`connected`, `adminSet` and `ts` (the `strftime` of the submit time) only
matter for `"submit"`.  `show_stats` / `about` touch neither session nor
sheet. -/
def handleCallback (w : World) (cdata : String) (u : UserInfo)
    (connected adminSet : Bool) (ts : String) : World :=
  if cdata = "start_feedback" then ⟨start_feedback w.session, w.store⟩
  else if "rate_".data.isPrefixOf cdata.data then
    ⟨process_rating w.session cdata, w.store⟩
  else if "type_".data.isPrefixOf cdata.data then
    ⟨process_type w.session cdata, w.store⟩
  else if cdata = "submit" then submit_feedback w u connected adminSet ts
  else if cdata = "edit" then ⟨edit_feedback w.session, w.store⟩
  else if cdata = "cancel" then ⟨⟨.idle, emptyDraft⟩, w.store⟩
  else w

/-- Text-message dispatch: the `/start` and `/stats` command handlers are
registered before the `waiting_comment` handler and change no session
state; any other text is consumed by `process_comment` only in
`waiting_comment`, and is otherwise unhandled. -/
def handleMessage (w : World) (t : String) : World :=
  if t = "/start" then w
  else if t = "/stats" then w
  else if w.session.st = .waiting_comment then
    ⟨process_comment w.session t, w.store⟩
  else w

/-- Python exception classes observed by the stats commands. -/
inductive PyErr
  | keyError
deriving DecidableEq

/-- The body of `cmd_stats`: the f-string reads `stats['total']`,
`stats['average']` and `stats['last_feedback']`; the last lookup raises
`KeyError` when the key is absent. -/
def cmd_stats_message (st : GS.MgrStats) : Except PyErr String :=
  match st.last_feedback with
  | none => .error .keyError
  | some lf =>
    .ok ("📊 Статистика отзывов\n\n📈 Всего отзывов: " ++ toString st.total ++
         "\n⭐ Средний балл: " ++ toString st.average ++
         "/5\n🕒 Последний отзыв: " ++ lf)

/-- The body of `show_stats` (same unconditional `stats['last_feedback']`
lookup as `cmd_stats`, different surrounding text). -/
def show_stats_message (st : GS.MgrStats) : Except PyErr String :=
  match st.last_feedback with
  | none => .error .keyError
  | some lf =>
    .ok ("📊 Текущая статистика отзывов\n\n📈 Всего отзывов: " ++ toString st.total ++
         "\n⭐ Средняя оценка: " ++ toString st.average ++
         "/5\n🕒 Последний отзыв: " ++ lf)

/-! ## `google_sheets_service.py` — `GoogleSheetsService` -/

namespace Svc

/-- One entry of the list returned by `get_all_feedbacks`: the
header→value dict (as the ordered pairs the building loop inserts) plus
the `_row` number.  Lookups follow dict semantics (a later duplicate key
would overwrite an earlier one). -/
structure Feedback where
  fields : List (String × String)
  row : Nat
deriving DecidableEq

/-- `fb[k]` / `fb.get(k)`: last-inserted value wins, `none` if absent. -/
def Feedback.get (fb : Feedback) (k : String) : Option String :=
  fb.fields.foldl (fun acc p => if p.1 == k then some p.2 else acc) none

/-- `fb.get(k, d)`. -/
def Feedback.getD (fb : Feedback) (k d : String) : String :=
  (fb.get k).getD d

/-- The dict built for one kept row:
`{header: row[j] if j < len(row) else "" for j, header in enumerate(headers)}`
(the guard `len(row) >= len(headers)` makes the `else ""` unreachable,
mirrored verbatim nonetheless). -/
def mkFields (headers row : List String) : List (String × String) :=
  headers.enum.map (fun q => (q.2, row.getD q.1 ""))

/-- The loop body of `get_all_feedbacks` for one enumerated data row:
the row is kept only under the guard `len(row) >= len(headers)`. -/
def keepRow (headers : List String) (p : Nat × List String) : Option Feedback :=
  if headers.length ≤ p.2.length then
    some ⟨mkFields headers p.2, p.1 + 2⟩
  else none

/-- `GoogleSheetsService.get_all_feedbacks(limit)`: takes
`all_values[1:limit+1]`, numbers rows from 2, and keeps only rows with
`len(row) >= len(headers)`.  Any exception (including a failed read)
yields `[]`. -/
def get_all_feedbacks (read : Except Unit Table) (limit : Nat) : List Feedback :=
  match read with
  | .error _ => []
  | .ok allValues =>
    if allValues.length ≤ 1 then []
    else
      match allValues with
      | [] => []
      | headers :: rest =>
        ((rest.take limit).enum).filterMap (keepRow headers)

/-- Gregorian leap year. -/
def isLeapYear (y : Nat) : Bool :=
  (y % 4 == 0 && y % 100 != 0) || (y % 400 == 0)

/-- Days in month `m` of year `y`. -/
def daysInMonth (y m : Nat) : Nat :=
  if m == 2 then (if isLeapYear y then 29 else 28)
  else if m == 4 || m == 6 || m == 9 || m == 11 then 30
  else 31

/-- Days in year `y` before month `m`. -/
def daysBeforeMonth (y m : Nat) : Nat :=
  (List.range (m - 1)).foldl (fun a i => a + daysInMonth y (i + 1)) 0

/-- Proleptic-Gregorian ordinal of a date (as `datetime.date.toordinal`). -/
def dateOrdinal (y m d : Nat) : Nat :=
  365 * (y - 1) + (y - 1) / 4 - (y - 1) / 100 + (y - 1) / 400 +
    daysBeforeMonth y m + d

/-- Ordinal of 1970-01-01, the epoch of the model's second counter. -/
def epochOrdinal : Nat := dateOrdinal 1970 1 1

/-- Two ASCII digits to a number. -/
def d2 (a b : Char) : Option Nat :=
  if a.isDigit && b.isDigit then some ((a.toNat - 48) * 10 + (b.toNat - 48))
  else none

/-- `datetime.strptime(s, "%Y-%m-%d %H:%M:%S").date()` as days since the
epoch; `none` models the `ValueError` swallowed by the surrounding
`try/except`.  Years are modelled as exactly four digits (the only form the
system itself ever writes). -/
def parseTsDate (s : String) : Option Int :=
  match s.data with
  | [y1, y2, y3, y4, c1, m1, m2, c2, dd1, dd2, c3, h1, h2, c4, n1, n2, c5, s1, s2] =>
    if c1 = '-' ∧ c2 = '-' ∧ c3 = ' ' ∧ c4 = ':' ∧ c5 = ':' then
      match d2 y1 y2, d2 y3 y4, d2 m1 m2, d2 dd1 dd2, d2 h1 h2, d2 n1 n2, d2 s1 s2 with
      | some yh, some yl, some mo, some dy, some hh, some mi, some ss =>
        let y := yh * 100 + yl
        if 1 ≤ y ∧ 1 ≤ mo ∧ mo ≤ 12 ∧ 1 ≤ dy ∧ dy ≤ daysInMonth y mo ∧
            hh ≤ 23 ∧ mi ≤ 59 ∧ ss ≤ 59 then
          some ((dateOrdinal y mo dy : Int) - (epochOrdinal : Int))
        else none
      | _, _, _, _, _, _, _ => none
    else none
  | _ => none

/-- The statistics dict.  `comment_percentage` and `success_rate` are
`Option`s because the empty-store branch omits those keys; `error` is set
only by the exception branch (unreachable in the model, kept for shape). -/
structure SvcStats where
  total : Nat
  average_rating : ℚ
  rating_distribution : List (String × Nat)
  type_distribution : List (String × Nat)
  status_distribution : List (String × Nat)
  last_week : Nat
  today : Nat
  with_comments : Nat
  comment_percentage : Option ℚ
  last_update : String
  success_rate : Option ℚ
  error : Option String
deriving DecidableEq

/-- `counts[k] = counts.get(k, 0) + 1` on a dict as ordered pairs:
update in place if present, else insert at the end. -/
def bump (l : List (String × Nat)) (k : String) : List (String × Nat) :=
  if l.any (fun p => p.1 == k) then
    l.map (fun p => if p.1 == k then (p.1, p.2 + 1) else p)
  else l ++ [(k, 1)]

/-- The per-feedback rating extraction of `get_statistics`:
`if fb.get("Rating") and fb["Rating"].isdigit(): int(fb["Rating"])`
(an absent key is skipped; `""` is falsy and also fails `isdigit`). -/
def svcRatingOf (fb : Feedback) : Option Nat :=
  match fb.get "Rating" with
  | some s => if isdigitStr s then some (digitsToNat s.data) else none
  | none => none

/-- The statistics computation of `get_statistics` over the feedback list,
at wall-clock second `now` (so `today = now / 86400` in epoch days).
Rational arithmetic is written on numerators/denominators so it evaluates
by kernel reduction: `sum/len` is `mkRat sum len`,
`(with_comments/len)*100` is `mkRat (with_comments*100) len`,
`(avg/5)*100` is `mkRat (avg.num*20) avg.den`, and `avg > 0` iff
`0 < avg.num`. -/
def computeStats (fbs : List Feedback) (now : Nat) : SvcStats :=
  match fbs with
  | [] =>
    ⟨0, 0, [], [], [], 0, 0, 0, none, "Нет данных", none, none⟩
  | f0 :: _ =>
    let ratings := fbs.filterMap svcRatingOf
    let type_counts := fbs.foldl (fun acc fb => bump acc (fb.getD "Type" "Не указан")) []
    let status_counts := fbs.foldl (fun acc fb => bump acc (fb.getD "Status" "Не указан")) []
    let with_comments := fbs.countP (fun fb => (pyStrip (fb.getD "Comment" "")).data != [])
    let todayOrd : Int := (now / 86400 : Nat)
    let today_count := fbs.countP (fun fb =>
      match parseTsDate (fb.getD "Timestamp" "") with
      | some d => d == todayOrd
      | none => false)
    let week_count := fbs.countP (fun fb =>
      match parseTsDate (fb.getD "Timestamp" "") with
      | some d => decide (todayOrd - d ≤ 7)
      | none => false)
    let rating_dist := ratings.foldl (fun acc r => bump acc (toString r))
      [("1", 0), ("2", 0), ("3", 0), ("4", 0), ("5", 0)]
    let avg : ℚ := if ratings.isEmpty then 0 else mkRat (ratings.sum : Int) ratings.length
    let comment_percentage : ℚ := mkRat ((with_comments : Int) * 100) fbs.length
    ⟨fbs.length, round2 avg, rating_dist, type_counts, status_counts,
     week_count, today_count, with_comments, some (round1 comment_percentage),
     f0.getD "Timestamp" "",
     some (if 0 < avg.num then round1 (mkRat (avg.num * 20) avg.den) else 0), none⟩

/-- The service's cache fields `_stats_cache` / `_cache_time`.  A stored
stats dict is always nonempty, so Python's truthiness test on
`_stats_cache` coincides with `isSome`. -/
structure CacheState where
  cache : Option SvcStats
  time : Option Nat
deriving DecidableEq

/-- `(datetime.now() - self._cache_time).seconds`: the seconds component of
the normalized timedelta, i.e. the difference modulo 86400 (defined for
either sign, as in Python). -/
def tdSeconds (now t : Nat) : Nat :=
  (((now : Int) - (t : Int)).emod 86400).toNat

/-- Result of one `get_statistics` call: the returned dict, the cache state
afterwards, and whether the store was (re)read. -/
structure GSResult where
  stats : SvcStats
  state : CacheState
  didRead : Bool
deriving DecidableEq

/-- The cache-miss path of `get_statistics`: read everything, recompute,
store the snapshot with `computedAt = now`. -/
def refreshStats (now : Nat) (read : Except Unit Table) : GSResult :=
  let s := computeStats (get_all_feedbacks read 100) now
  ⟨s, ⟨some s, some now⟩, true⟩

/-- `GoogleSheetsService.get_statistics(force_refresh)`: return the cached
dict iff `force_refresh` is falsy, both cache fields are truthy, and the
cache age's seconds component is below `CACHE_TIMEOUT = 60`. -/
def get_statistics (st : CacheState) (now : Nat) (read : Except Unit Table)
    (force : Bool) : GSResult :=
  match force, st.cache, st.time with
  | false, some s, some t =>
    if tdSeconds now t < 60 then ⟨s, st, false⟩ else refreshStats now read
  | _, _, _ => refreshStats now read

/-- `user_data` as `save_feedback` reads it (every field via `.get`). -/
structure SvcUser where
  id : Option Int
  username : Option String
  first_name : Option String
  last_name : Option String
  language_code : Option String
  chat_id : Option Int
deriving DecidableEq

/-- `feedback_data` as `save_feedback` reads it. -/
structure SvcFb where
  rating : Option Int
  ftype : Option String
  comment : Option String
  session_id : Option String
deriving DecidableEq

/-- The 14-column row `save_feedback` appends
(`str(...get(k, ""))` renders an absent key as `""`). -/
def svcRow (u : SvcUser) (fb : SvcFb) (ts : String) : List String :=
  [ts,
   (match u.id with | none => "" | some i => toString i),
   u.username.getD "", u.first_name.getD "", u.last_name.getD "",
   (match fb.rating with | none => "" | some r => toString r),
   fb.ftype.getD "", fb.comment.getD "",
   "🆕 Новый", u.language_code.getD "ru",
   (match u.chat_id with | none => "" | some i => toString i),
   "Telegram", "1.0", fb.session_id.getD ""]

/-- The result dict of `GoogleSheetsService.save_feedback`. -/
structure SaveResult where
  success : Bool
  row_number : Option Nat
  error : Option String
  timestamp : Option String
deriving DecidableEq

/-- `GoogleSheetsService.save_feedback`: on an available connection the row
is appended, `row_number = len(get_all_values())`, and `_stats_cache` is
set to `None` (`_cache_time` is left as it was); with no connection the
error result is returned before a timestamp is taken. -/
def save_feedback (st : CacheState) (store : Table) (connected : Bool)
    (u : SvcUser) (fb : SvcFb) (ts : String) :
    SaveResult × CacheState × Table :=
  if connected then
    let store' := store ++ [svcRow u fb ts]
    (⟨true, some store'.length, none, some ts⟩, ⟨none, st.time⟩, store')
  else
    (⟨false, none, some "Не удалось подключиться к Google Sheets", none⟩, st, store)

end Svc

/-! ## Concrete fixtures used by witnesses and counterexamples -/

/-- A plausible header row of the manager-backed sheet (its content is
irrelevant to `get_stats`, which only skips row 0). -/
def gsHeader : List String :=
  ["Timestamp", "User ID", "Username", "First Name", "Last Name",
   "Rating", "Type", "Comment", "Status"]

/-- The 14-column header written by `GoogleSheetsService._initialize_headers`. -/
def hdr14 : List String :=
  ["Timestamp", "User ID", "Username", "First Name", "Last Name", "Rating",
   "Type", "Comment", "Status", "Language Code", "Chat ID", "Platform",
   "Bot Version", "Session ID"]

/-- A six-column header (a sheet whose extension columns were never added). -/
def hdr6 : List String :=
  ["Timestamp", "User ID", "Username", "First Name", "Last Name", "Rating"]

/-- A six-cell data row with rating `"5"` and an unparseable timestamp. -/
def row5 : List String := ["", "", "", "", "", "5"]

/-- A store with a header and exactly 100 data rows. -/
def c5store : Table := hdr6 :: List.replicate 100 row5

/-- A concrete submitting user. -/
def user1 : UserInfo := ⟨1, some "u", some "f", some "l"⟩

/-- The 9-column row written by the manager (`google_sheets.py`), read
back by the service, which expects 14 header columns. -/
def row9 : List String := GS.mkRow user1 ⟨some 5, some "Идея", some "hi"⟩ "ts"

/-- A concrete service-level user dict. -/
def svcU : Svc.SvcUser := ⟨some 1, some "u", some "f", some "l", none, none⟩

/-- A concrete service-level feedback dict with rating 1. -/
def svcF : Svc.SvcFb := ⟨some 1, some "Идея", some "c", none⟩

/-- A store with one data row whose timestamp parses to epoch day 0. -/
def storeC6 : Table := [["Timestamp", "Rating"], ["1970-01-01 05:00:00", "5"]]

/-- Data rows with ratings 5, 4, 3 and one non-numeric rating cell. -/
def c8rows : Table :=
  [["t1", "", "", "", "", "5"], ["t2", "", "", "", "", "abc"],
   ["t3", "", "", "", "", "4"], ["t4", "", "", "", "", "3"]]

/-- A manager sheet holding `c8rows`. -/
def c8data : Table := gsHeader :: c8rows

/-- The same record set for the service-side statistics. -/
def svcC8 : Table :=
  [["Timestamp", "Rating"], ["", "5"], ["", "abc"], ["", "4"], ["", "3"]]

/-! ## Helper lemmas about `get_all_feedbacks` -/

/-- The kept-row count of the `get_all_feedbacks` loop. -/
lemma length_filterMap_keepRow (hdr : List String) :
    ∀ (l : Table) (n : Nat),
      ((List.enumFrom n l).filterMap (Svc.keepRow hdr)).length
        = l.countP (fun row => decide (hdr.length ≤ row.length)) := by
  intro l
  induction l with
  | nil => intro n; simp
  | cons a t ih =>
    intro n
    by_cases h : hdr.length ≤ a.length <;>
      simp [List.enumFrom_cons, Svc.keepRow, h, List.countP_cons, ih]

/-- Row numbers produced from `enumFrom n` are at least `n + 2`. -/
lemma keepRow_row_ge (hdr : List String) :
    ∀ (l : Table) (n : Nat) (fb : Svc.Feedback),
      fb ∈ (List.enumFrom n l).filterMap (Svc.keepRow hdr) → n + 2 ≤ fb.row := by
  intro l
  induction l with
  | nil => simp
  | cons a t ih =>
    intro n fb hmem
    rw [List.enumFrom_cons, List.filterMap_cons] at hmem
    by_cases h : hdr.length ≤ a.length
    · rw [show Svc.keepRow hdr (n, a) = some ⟨Svc.mkFields hdr a, n + 2⟩ from by
        simp [Svc.keepRow, h]] at hmem
      rcases List.mem_cons.mp hmem with rfl | hmem
      · simp
      · have := ih (n + 1) fb hmem
        omega
    · rw [show Svc.keepRow hdr (n, a) = none from by simp [Svc.keepRow, h]] at hmem
      have := ih (n + 1) fb hmem
      omega

/-- The row numbers of the kept feedbacks are strictly increasing
(append order is preserved). -/
lemma keepRow_pairwise (hdr : List String) :
    ∀ (l : Table) (n : Nat),
      List.Pairwise (· < ·)
        (((List.enumFrom n l).filterMap (Svc.keepRow hdr)).map Svc.Feedback.row) := by
  intro l
  induction l with
  | nil => intro n; simp
  | cons a t ih =>
    intro n
    rw [List.enumFrom_cons, List.filterMap_cons]
    by_cases h : hdr.length ≤ a.length
    · rw [show Svc.keepRow hdr (n, a) = some ⟨Svc.mkFields hdr a, n + 2⟩ from by
        simp [Svc.keepRow, h]]
      rw [List.map_cons, List.pairwise_cons]
      constructor
      · intro b hb
        obtain ⟨fb, hfb, rfl⟩ := List.mem_map.mp hb
        have := keepRow_row_ge hdr t (n + 1) fb hfb
        show n + 2 < fb.row
        omega
      · exact ih (n + 1)
    · rw [show Svc.keepRow hdr (n, a) = none from by simp [Svc.keepRow, h]]
      exact ih (n + 1)

/-- `get_all_feedbacks` on a successful read with a header row is the
filtered enumeration of the first `limit` data rows. -/
lemma gaf_ok_cons (hdr : List String) (rows : Table) (limit : Nat) :
    Svc.get_all_feedbacks (.ok (hdr :: rows)) limit
      = ((rows.take limit).enum).filterMap (Svc.keepRow hdr) := by
  cases rows with
  | nil => simp [Svc.get_all_feedbacks]
  | cons a t => simp [Svc.get_all_feedbacks]

/-- `total` of the computed statistics is always the feedback count. -/
lemma computeStats_total (fbs : List Svc.Feedback) (now : Nat) :
    (Svc.computeStats fbs now).total = fbs.length := by
  cases fbs <;> rfl

/-! ## Claim C1 -/

/-- Claim C1, counterexample: the rating handler has no range guard.  From
`Idle`, the event sequence start → `rate_7` → `type_idea` → comment `"ok"`
→ submit is accepted end to end, and the persisted record's rating cell is
`"7"`, an integer outside `{1..5}`. -/
theorem C1_counterexample :
    (handleCallback (handleCallback ⟨⟨.idle, emptyDraft⟩, [gsHeader]⟩
        "start_feedback" user1 true false "ts") "rate_7" user1 true false "ts").session
      = ⟨.waiting_type, ⟨some 7, none, none⟩⟩ ∧
    (handleCallback (handleMessage (handleCallback (handleCallback
        (handleCallback ⟨⟨.idle, emptyDraft⟩, [gsHeader]⟩
          "start_feedback" user1 true false "ts")
        "rate_7" user1 true false "ts") "type_idea" user1 true false "ts") "ok")
        "submit" user1 true false "ts").store
      = [gsHeader, ["ts", "1", "u", "f", "l", "7", "Идея", "ok", "новый"]] ∧
    ¬(1 ≤ (7 : Int) ∧ (7 : Int) ≤ 5) := by
  decide

/-- Claim C1, amended: the rating handler accepts a `rate_…` event exactly
when the token between the first and second underscore parses as a
(possibly signed) integer, and it stores that integer without any range
check; the `{1..5}` restriction is enforced only by the buttons offered,
not by the handler, so any integer rating can be persisted. -/
theorem C1_rating_guard (s : Session) (cdata t : String)
    (hsplit : pySplitUnderscore cdata = ["rate", t]) :
    (pyInt t = none → process_rating s cdata = s) ∧
    ∀ r : Int, pyInt t = some r →
      process_rating s cdata = ⟨.waiting_type, { s.data with rating := some r }⟩ := by
  constructor
  · intro h
    unfold process_rating
    rw [hsplit]
    simp only [List.getD_cons_succ, List.getD_cons_zero]
    rw [h]
  · intro r h
    unfold process_rating
    rw [hsplit]
    simp only [List.getD_cons_succ, List.getD_cons_zero]
    rw [h]

/-- Witness for `C1_rating_guard` at the forged event `rate_7`. -/
theorem C1_rating_guard_witness :
    process_rating ⟨.idle, emptyDraft⟩ "rate_7"
      = ⟨.waiting_type, ⟨some 7, none, none⟩⟩ :=
  (C1_rating_guard ⟨.idle, emptyDraft⟩ "rate_7" "7" (by decide)).2 7 (by decide)

/-! ## Claim C2 -/

/-- Claim C2, counterexample: `edit` from `AwaitingConfirmation` moves to
`waiting_rating` but the draft is fully preserved (`set_state` does not
touch the FSM data), and a subsequent submit persists the retained
answers instead of being rejected as incomplete. -/
theorem C2_counterexample :
    (handleCallback ⟨⟨.confirmation, ⟨some 5, some "Идея", some "hi"⟩⟩, [gsHeader]⟩
        "edit" user1 true false "ts").session
      = ⟨.waiting_rating, ⟨some 5, some "Идея", some "hi"⟩⟩ ∧
    (⟨some 5, some "Идея", some "hi"⟩ : Draft) ≠ emptyDraft ∧
    (handleCallback (handleCallback
        ⟨⟨.confirmation, ⟨some 5, some "Идея", some "hi"⟩⟩, [gsHeader]⟩
        "edit" user1 true false "ts") "submit" user1 true false "ts").store
      = [gsHeader, ["ts", "1", "u", "f", "l", "5", "Идея", "hi", "новый"]] := by
  decide

/-- Claim C2, amended: the `edit` event returns the session to
`AwaitingRating` but preserves the entire prior draft (the handler calls
only `set_state`, which does not clear the FSM data); a subsequent submit
is not rejected and appends the retained answers. -/
theorem C2_edit_preserves_draft (s : Session) (store : Table) (u : UserInfo)
    (conn adminSet : Bool) (ts : String) :
    handleCallback ⟨s, store⟩ "edit" u conn adminSet ts
      = ⟨⟨.waiting_rating, s.data⟩, store⟩ ∧
    (handleCallback (handleCallback ⟨s, store⟩ "edit" u conn adminSet ts)
        "submit" u true false ts).store = store ++ [GS.mkRow u s.data ts] := by
  constructor
  · rfl
  · rfl

/-! ## Claim C3 -/

/-- Claim C3, counterexample: submit invoked on a completely empty draft
does not fail — it appends a record whose rating, type and comment cells
are all the empty string. -/
theorem C3_counterexample :
    (handleCallback ⟨⟨.confirmation, emptyDraft⟩, [gsHeader]⟩
        "submit" user1 true false "ts").store
      = [gsHeader, ["ts", "1", "u", "f", "l", "", "", "", "новый"]] ∧
    emptyDraft.rating = none ∧ emptyDraft.ftype = none ∧
    emptyDraft.comment = none := by
  decide

/-- Claim C3, amended: submit performs no completeness validation — with a
working connection it always appends the serialized draft, and any absent
field (rating, category or comment) is persisted as the empty string
rather than causing the operation to fail. -/
theorem C3_submit_no_validation (s : Session) (store : Table) (u : UserInfo)
    (adminSet : Bool) (ts : String) :
    (handleCallback ⟨s, store⟩ "submit" u true adminSet ts).store
      = store ++ [GS.mkRow u s.data ts] ∧
    GS.mkRow u emptyDraft ts
      = [ts, toString u.id, u.username.getD "", u.first_name.getD "",
         u.last_name.getD "", "", "", "", "новый"] := by
  refine ⟨?_, rfl⟩
  rcases s with ⟨sst, srat, styp, scom⟩
  cases adminSet <;> cases srat <;> cases styp <;> rfl

/-! ## Claim C4 -/

/-- Claim C4, counterexample: a data row shorter than the header (here the
very 9-column row the manager itself writes, against the service's
14-column header) is discarded by the bulk read, not padded with empty
strings, so the computed total is 0 although the store has one data row. -/
theorem C4_counterexample :
    Svc.get_all_feedbacks (.ok [hdr14, row9]) 100 = [] ∧
    ([hdr14, row9].drop 1).length = 1 ∧
    row9.length < hdr14.length ∧
    (Svc.computeStats (Svc.get_all_feedbacks (.ok [hdr14, row9]) 100) 0).total = 0 := by
  decide

/-- Claim C4, amended: the bulk read returns at most the first `limit`
(default 100) data rows after the header, keeping exactly the rows at
least as long as the header (shorter rows are discarded, not padded) in
append order (row numbers strictly increasing), and the computed total
equals the number of feedbacks so obtained, not the number of data rows
in the store. -/
theorem C4_read_order_and_total (hdr : List String) (rows : Table) (limit : Nat) :
    (Svc.get_all_feedbacks (.ok (hdr :: rows)) limit).length
      = (rows.take limit).countP (fun row => decide (hdr.length ≤ row.length)) ∧
    List.Pairwise (· < ·)
      ((Svc.get_all_feedbacks (.ok (hdr :: rows)) limit).map Svc.Feedback.row) ∧
    ∀ (fbs : List Svc.Feedback) (now : Nat),
      (Svc.computeStats fbs now).total = fbs.length := by
  refine ⟨?_, ?_, computeStats_total⟩
  · rw [gaf_ok_cons]
    simpa [List.enum] using length_filterMap_keepRow hdr (rows.take limit) 0
  · rw [gaf_ok_cons]
    simpa [List.enum] using keepRow_pairwise hdr (rows.take limit) 0

/-! ## Claim C5 -/

/-- Claim C5, counterexample: with 100 data rows already present, a
successful save does clear the cache and the following
`get_statistics(false)` does re-read the store — but the recomputation
reads only the first 100 data rows, so its result is identical to the
pre-write statistics and does not include the newly appended record
(total stays 100 while the store now has 101 data rows). -/
theorem C5_counterexample :
    (Svc.save_feedback ⟨none, none⟩ c5store true svcU svcF "ts").1.success = true ∧
    (Svc.save_feedback ⟨none, none⟩ c5store true svcU svcF "ts").2.1.cache = none ∧
    (Svc.get_statistics (Svc.save_feedback ⟨none, none⟩ c5store true svcU svcF "ts").2.1 5
        (.ok (Svc.save_feedback ⟨none, none⟩ c5store true svcU svcF "ts").2.2) false).didRead
      = true ∧
    (Svc.get_statistics (Svc.save_feedback ⟨none, none⟩ c5store true svcU svcF "ts").2.1 5
        (.ok (Svc.save_feedback ⟨none, none⟩ c5store true svcU svcF "ts").2.2) false).stats
      = (Svc.get_statistics ⟨none, none⟩ 5 (.ok c5store) false).stats ∧
    (Svc.get_statistics (Svc.save_feedback ⟨none, none⟩ c5store true svcU svcF "ts").2.1 5
        (.ok (Svc.save_feedback ⟨none, none⟩ c5store true svcU svcF "ts").2.2) false).stats.total
      = 100 ∧
    ((Svc.save_feedback ⟨none, none⟩ c5store true svcU svcF "ts").2.2.drop 1).length = 101 := by
  refine ⟨by decide, rfl, by decide, ?_, by decide, by decide⟩
  have hgaf : Svc.get_all_feedbacks
        (.ok (hdr6 :: (List.replicate 100 row5 ++ [Svc.svcRow svcU svcF "ts"]))) 100
      = Svc.get_all_feedbacks (.ok (hdr6 :: List.replicate 100 row5)) 100 := by
    rw [gaf_ok_cons, gaf_ok_cons, List.take_left' (by simp),
      List.take_of_length_le (by simp)]
  show (Svc.refreshStats 5
        (.ok (hdr6 :: (List.replicate 100 row5 ++ [Svc.svcRow svcU svcF "ts"])))).stats
      = (Svc.refreshStats 5 (.ok (hdr6 :: List.replicate 100 row5))).stats
  unfold Svc.refreshStats
  rw [hgaf]

/-- Claim C5, amended: every successful `save_feedback` clears the cached
snapshot and appends exactly one serialized row, and a following
`get_statistics(false)` re-reads the store rather than returning a
pre-write snapshot; the recomputation, however, reads only the first 100
data rows, so the new record is part of it (exactly) when at most 99 data
rows precede it. -/
theorem C5_save_invalidates_cache (st : Svc.CacheState) (store : Table)
    (u : Svc.SvcUser) (fb : Svc.SvcFb) (ts : String) (now : Nat) :
    (Svc.save_feedback st store true u fb ts).1.success = true ∧
    (Svc.save_feedback st store true u fb ts).2.1.cache = none ∧
    (Svc.save_feedback st store true u fb ts).2.2 = store ++ [Svc.svcRow u fb ts] ∧
    (Svc.get_statistics (Svc.save_feedback st store true u fb ts).2.1 now
        (.ok (Svc.save_feedback st store true u fb ts).2.2) false).didRead = true ∧
    (∀ (hdr : List String) (rows : Table), store = hdr :: rows →
      rows.length + 1 ≤ 100 → hdr.length ≤ 14 →
      (⟨Svc.mkFields hdr (Svc.svcRow u fb ts), rows.length + 2⟩ : Svc.Feedback) ∈
        Svc.get_all_feedbacks
          (.ok (Svc.save_feedback st store true u fb ts).2.2) 100) := by
  refine ⟨rfl, rfl, rfl, ?_, ?_⟩
  · rfl
  · rintro hdr rows rfl h100 h14
    show _ ∈ Svc.get_all_feedbacks
      (.ok ((hdr :: rows) ++ [Svc.svcRow u fb ts])) 100
    rw [List.cons_append, gaf_ok_cons,
      List.take_of_length_le (by simp; omega), List.enum_append,
      List.filterMap_append]
    apply List.mem_append_right
    have hr : (Svc.svcRow u fb ts).length = 14 := rfl
    simp [List.enumFrom_cons, Svc.keepRow, hr, h14]

/-- Witness for `C5_save_invalidates_cache`: one prior data row, the new
record is read back. -/
theorem C5_save_invalidates_cache_witness :
    (Svc.save_feedback ⟨none, none⟩ [hdr6, row5] true svcU svcF "ts").1.success = true ∧
    (⟨Svc.mkFields hdr6 (Svc.svcRow svcU svcF "ts"), 3⟩ : Svc.Feedback) ∈
      Svc.get_all_feedbacks
        (.ok (Svc.save_feedback ⟨none, none⟩ [hdr6, row5] true svcU svcF "ts").2.2) 100 := by
  have h := C5_save_invalidates_cache ⟨none, none⟩ [hdr6, row5] svcU svcF "ts" 0
  exact ⟨h.1, h.2.2.2.2 hdr6 [row5] rfl (by decide) (by decide)⟩

/-! ## Claim C6 -/

/-- Claim C6, counterexample: the TTL is measured from the snapshot's
computation time, not from the previous call.  With a snapshot computed at
second 86350, the calls at 86399 and 86411 are 12 time-units apart with no
intervening write, yet the second of them re-reads the store and returns a
different snapshot (the `today` counter changes across midnight). -/
theorem C6_counterexample :
    (Svc.get_statistics (Svc.get_statistics ⟨none, none⟩ 86350 (.ok storeC6) false).state
        86399 (.ok storeC6) false).didRead = false ∧
    (Svc.get_statistics (Svc.get_statistics ⟨none, none⟩ 86350 (.ok storeC6) false).state
        86399 (.ok storeC6) false).stats
      = (Svc.get_statistics ⟨none, none⟩ 86350 (.ok storeC6) false).stats ∧
    (Svc.get_statistics (Svc.get_statistics (Svc.get_statistics ⟨none, none⟩ 86350
        (.ok storeC6) false).state 86399 (.ok storeC6) false).state
        86411 (.ok storeC6) false).didRead = true ∧
    (Svc.get_statistics (Svc.get_statistics (Svc.get_statistics ⟨none, none⟩ 86350
        (.ok storeC6) false).state 86399 (.ok storeC6) false).state
        86411 (.ok storeC6) false).stats.today
      ≠ (Svc.get_statistics (Svc.get_statistics ⟨none, none⟩ 86350 (.ok storeC6) false).state
        86399 (.ok storeC6) false).stats.today ∧
    86411 - 86399 < 60 := by
  decide

/-- Claim C6, amended: whenever a `get_statistics(false)` call computed a
fresh snapshot, any later `get_statistics(false)` call issued less than 60
time-units after that computation (with no intervening write) returns the
identical cached snapshot, leaves the cache untouched, and does not
re-read the store. -/
theorem C6_cache_fresh_hit (st : Svc.CacheState) (read : Except Unit Table)
    (t1 t2 : Nat) (h1 : t1 ≤ t2) (h2 : t2 - t1 < 60)
    (hmiss : (Svc.get_statistics st t1 read false).didRead = true) :
    Svc.get_statistics (Svc.get_statistics st t1 read false).state t2 read false
      = ⟨(Svc.get_statistics st t1 read false).stats,
         (Svc.get_statistics st t1 read false).state, false⟩ := by
  have hfirst : Svc.get_statistics st t1 read false = Svc.refreshStats t1 read := by
    rcases st with ⟨c, tm⟩
    cases c with
    | none => rfl
    | some s =>
      cases tm with
      | none => rfl
      | some t =>
        by_cases hlt : Svc.tdSeconds t1 t < 60
        · simp [Svc.get_statistics, hlt] at hmiss
        · simp [Svc.get_statistics, hlt]
  have hsec : Svc.tdSeconds t2 t1 < 60 := by
    unfold Svc.tdSeconds
    have h0 : (0 : Int) ≤ (t2 : Int) - (t1 : Int) := by omega
    have hlt : ((t2 : Int) - (t1 : Int)) < 86400 := by omega
    have hm : ((t2 : Int) - (t1 : Int)).emod 86400 = (t2 : Int) - (t1 : Int) :=
      Int.emod_eq_of_lt h0 hlt
    rw [hm]
    omega
  rw [hfirst]
  simp [Svc.get_statistics, Svc.refreshStats, hsec]

/-- Witness for `C6_cache_fresh_hit`: a fresh computation at time 0
followed by a call at time 10. -/
theorem C6_cache_fresh_hit_witness :
    Svc.get_statistics (Svc.get_statistics ⟨none, none⟩ 0 (.ok []) false).state
        10 (.ok []) false
      = ⟨(Svc.get_statistics ⟨none, none⟩ 0 (.ok []) false).stats,
         (Svc.get_statistics ⟨none, none⟩ 0 (.ok []) false).state, false⟩ :=
  C6_cache_fresh_hit ⟨none, none⟩ (.ok []) 0 10 (by decide) (by decide) (by decide)

/-! ## Claim C8 -/

/-- Claim C8: the computed average is the arithmetic mean of the parseable
ratings — over `[5, 4, 3]` (with an extra non-numeric rating row) it is
exactly 4; over a record set with no parseable rating it is 0 (the
division is guarded); non-numeric rating rows are excluded from the
average but counted in the total.  Both the manager (`get_stats`) and the
service (`get_statistics`) are covered. -/
theorem C8_average (data : Table) (hdr : List String) (rows : Table)
    (c : String) (cs : List String) :
    ((GS.get_stats true (.ok c8data)).average = 4 ∧
     (GS.get_stats true (.ok c8data)).total = 4) ∧
    ((data.drop 1).filterMap GS.ratingOfRow = [] →
      (GS.get_stats true (.ok data)).average = 0) ∧
    (rows.getLast? = some (c :: cs) →
      (GS.get_stats true (.ok (hdr :: rows))).total = rows.length) ∧
    ((Svc.get_statistics ⟨none, none⟩ 0 (.ok svcC8) true).stats.average_rating = 4 ∧
     (Svc.get_statistics ⟨none, none⟩ 0 (.ok svcC8) true).stats.total = 4) := by
  refine ⟨⟨by decide, by decide⟩, ?_, ?_, by decide, by decide⟩
  · intro h
    unfold GS.get_stats
    by_cases hlen : data.length ≤ 1
    · simp [hlen]
    · simp only [hlen, if_false, if_true, h, List.isEmpty_nil]
      split <;> simp <;> decide
  · intro h
    have hne : rows ≠ [] := by
      rintro rfl
      simp at h
    unfold GS.get_stats
    have hlen : ¬((hdr :: rows).length ≤ 1) := by
      cases rows with
      | nil => exact absurd rfl hne
      | cons a l => simp
    simp only [hlen, if_false, if_true, List.drop_succ_cons, List.drop_zero, h]

/-- Witness for `C8_average`: the no-parseable-rating case on a
header-only sheet, and the total over the mixed record set. -/
theorem C8_average_witness :
    (GS.get_stats true (.ok [gsHeader])).average = 0 ∧
    (GS.get_stats true (.ok c8data)).total = 4 :=
  ⟨(C8_average [gsHeader] gsHeader c8rows "t4" [] ).2.1 (by decide),
   (C8_average [gsHeader] gsHeader c8rows "t4"
      ["", "", "", "", "3"]).2.2.1 (by decide)⟩

/-! ## Claim C7 -/

/-- Claim C7: in `waiting_comment` with rating and category present, a
comment text `t` is stored as `""` when `t` is the skip marker `"/skip"`
and as `t` itself otherwise; the session advances to confirmation, and
the persisted record's comment cell carries exactly that string (a
string, never null/absent). -/
theorem C7_comment_normalization (r : Int) (c : String) (co : Option String)
    (t : String) (u : UserInfo) (ts : String) (store : Table) :
    (process_comment ⟨.waiting_comment, ⟨some r, some c, co⟩⟩ t).data.comment
      = some (if t = "/skip" then "" else t) ∧
    (process_comment ⟨.waiting_comment, ⟨some r, some c, co⟩⟩ t).st
      = .confirmation ∧
    (handleCallback ⟨process_comment ⟨.waiting_comment, ⟨some r, some c, co⟩⟩ t,
        store⟩ "submit" u true false ts).store
      = store ++ [GS.mkRow u ⟨some r, some c, some (if t = "/skip" then "" else t)⟩ ts] ∧
    (GS.mkRow u ⟨some r, some c, some (if t = "/skip" then "" else t)⟩ ts).getD 7 ""
      = (if t = "/skip" then "" else t) := by
  exact ⟨rfl, rfl, rfl, rfl⟩

/-! ## Claim C9 -/

/-- Claim C9: the `cancel` callback from any non-Idle session state clears
the session to `Idle` with an empty draft and leaves the sheet contents
untouched (zero records appended). -/
theorem C9_cancel_resets (w : World) (u : UserInfo) (conn adminSet : Bool)
    (ts : String) (h : w.session.st ≠ .idle) :
    handleCallback w "cancel" u conn adminSet ts
      = ⟨⟨.idle, emptyDraft⟩, w.store⟩ := by
  rfl

/-- Witness for `C9_cancel_resets` from `AwaitingConfirmation`. -/
theorem C9_cancel_resets_witness :
    handleCallback ⟨⟨.confirmation, ⟨some 5, some "Идея", some "hi"⟩⟩, [gsHeader]⟩
        "cancel" user1 true false "ts"
      = ⟨⟨.idle, emptyDraft⟩, [gsHeader]⟩ :=
  C9_cancel_resets ⟨⟨.confirmation, ⟨some 5, some "Идея", some "hi"⟩⟩, [gsHeader]⟩
    user1 true false "ts" (by decide)

/-! ## Claim C10 -/

/-- Claim C10: when the manager is not connected, the read fails, or the
sheet has no data rows, `get_stats` returns a dict without the
`last_feedback` key, and the stats command handlers' unconditional
`stats['last_feedback']` lookup then raises `KeyError` instead of
rendering the statistics message. -/
theorem C10_missing_last_feedback (e : String) (data : Table)
    (st : GS.MgrStats) :
    (GS.get_stats false (.ok data)).last_feedback = none ∧
    (GS.get_stats true (.error e)).last_feedback = none ∧
    (data.length ≤ 1 → (GS.get_stats true (.ok data)).last_feedback = none) ∧
    (st.last_feedback = none → cmd_stats_message st = .error .keyError) ∧
    (st.last_feedback = none → show_stats_message st = .error .keyError) := by
  refine ⟨rfl, rfl, ?_, ?_, ?_⟩
  · intro h
    unfold GS.get_stats
    simp [h]
  · intro h
    unfold cmd_stats_message
    rw [h]
  · intro h
    unfold show_stats_message
    rw [h]

/-- Witness for `C10_missing_last_feedback`: a sheet holding only its
header row, and the resulting keyless stats dict. -/
theorem C10_missing_last_feedback_witness :
    (GS.get_stats true (.ok [gsHeader])).last_feedback = none ∧
    cmd_stats_message ⟨0, 0, none⟩ = .error .keyError :=
  ⟨(C10_missing_last_feedback "" [gsHeader] ⟨0, 0, none⟩).2.2.1 (by decide),
   (C10_missing_last_feedback "" [gsHeader] ⟨0, 0, none⟩).2.2.2.1 rfl⟩

end FeedbackBot
